import Mathlib

/-!
Verification of the MotdPE prober (src/motdpe/MotdPE.cpp) against its design
specification.

The program probes a Minecraft Bedrock server over UDP: QueryMotdImpl
resolves the host with getaddrinfo and, for each resolved candidate address
in order, opens a UDP socket, configures the receive timeout with
setsockopt, sends a fixed 33-byte RakNet unconnected-ping datagram with
sendto, waits for one reply with recvfrom, and returns the bytes of the
first reply strictly longer than 35 bytes, from offset 35 onward.  If
resolution fails it throws a DNS-resolution error; if no candidate yields a
long-enough reply it throws an all-attempts-failed error naming host and
port.

Embedding conventions:
- bytes are Nat values (each below 256 in practice);
- the OS and network are an explicit per-call environment: the getaddrinfo
  outcome is an Except value, and each resolved candidate records whether
  socket creation, setsockopt and sendto succeed and what recvfrom delivers
  into the 1024-byte buffer (Option.none models a receive timeout or error,
  recvLen == -1 in the source);
- the observable socket-layer actions of a call are collected into an event
  trace, so resource and packet claims are statements about that trace;
- thrown MotdException values become an Except error carrying a MotdError;
- the POSIX branches of the source are the ones embedded (the Windows
  conditional branches differ only in API names and in the timeout type).
-/

/-- queryBuf (MotdPE.cpp lines 154-158): the fixed 33-byte probe datagram,
declared in the source as a static constexpr array, byte for byte. -/
def queryBuf : List Nat :=
  [0x01, 0x00, 0x00, 0x00, 0x00, 0xFF, 0xFF,
   0xC1, 0x1D, 0x00, 0xFF, 0xFF, 0x00, 0xFE,
   0xFE, 0xFE, 0xFE, 0xFD, 0xFD, 0xFD, 0xFD,
   0x12, 0x34, 0x56, 0x78, 0x9C, 0x18, 0x28,
   0x7F, 0xE1, 0x64, 0x89, 0x8D]

/-- Conversion of the caller's timeout in milliseconds to the timeval passed
to setsockopt (MotdPE.cpp lines 197-199): tv_sec = timeoutMs / 1000 and
tv_usec = (timeoutMs % 1000) * 1000.  C++ integer division truncates toward
zero, which is Int.tdiv / Int.tmod. -/
def tvOfTimeoutMs (timeoutMs : Int) : Int × Int :=
  (timeoutMs.tdiv 1000, timeoutMs.tmod 1000 * 1000)

/-- One OS-level action performed by the candidate loop, tagged with an
abstract identifier of the candidate address it concerns. -/
inductive SockEvent where
  | sockOpen (addr : Nat)
  | setRcvTimeout (addr : Nat) (tvSec tvUsec : Int)
  | sendPkt (addr : Nat) (payload : List Nat)
  | recvPkt (addr : Nat)
  | sockClose (addr : Nat)
deriving DecidableEq

/-- One entry of the getaddrinfo result list, together with the behaviour
the OS and network exhibit for the probe attempt on it: whether the socket
call, setsockopt and sendto succeed, and what recvfrom delivers (none
models a receive timeout or error, where recvfrom returns -1; some reply
models recvLen = reply.length bytes placed in the buffer). -/
structure Candidate where
  addr : Nat
  socketOk : Bool
  sockoptOk : Bool
  sendOk : Bool
  recv : Option (List Nat)
deriving DecidableEq

/-- The socket-layer events of one iteration of the candidate loop
(MotdPE.cpp lines 187-233).  If the socket call fails nothing happens; an
opened socket is always closed by the SocketHandle destructor at the end of
the iteration; setsockopt is always called on an opened socket; sendto is
called only after setsockopt succeeded; recvfrom only after sendto
succeeded. -/
def attemptTrace (timeoutMs : Int) (c : Candidate) : List SockEvent :=
  if c.socketOk = false then []
  else if c.sockoptOk = false then
    [.sockOpen c.addr,
     .setRcvTimeout c.addr (tvOfTimeoutMs timeoutMs).1 (tvOfTimeoutMs timeoutMs).2,
     .sockClose c.addr]
  else if c.sendOk = false then
    [.sockOpen c.addr,
     .setRcvTimeout c.addr (tvOfTimeoutMs timeoutMs).1 (tvOfTimeoutMs timeoutMs).2,
     .sendPkt c.addr queryBuf,
     .sockClose c.addr]
  else
    [.sockOpen c.addr,
     .setRcvTimeout c.addr (tvOfTimeoutMs timeoutMs).1 (tvOfTimeoutMs timeoutMs).2,
     .sendPkt c.addr queryBuf,
     .recvPkt c.addr,
     .sockClose c.addr]

/-- The result of one iteration of the candidate loop: some payload exactly
when every OS call succeeded and the received datagram is strictly longer
than 35 bytes, in which case the payload is the received bytes from offset
35 to the end (MotdPE.cpp lines 228-231). -/
def attemptResult (c : Candidate) : Option (List Nat) :=
  if c.socketOk && c.sockoptOk && c.sendOk then
    match c.recv with
    | some reply => if 35 < reply.length then some (reply.drop 35) else none
    | none => none
  else none

/-- The candidate loop of QueryMotdImpl (MotdPE.cpp lines 187-233): try the
candidates in resolution order, stop at the first successful attempt (the
break at line 231), return the accumulated event trace and the optional
payload. -/
def runLoop (timeoutMs : Int) : List Candidate → List SockEvent × Option (List Nat)
  | [] => ([], none)
  | c :: rest =>
    match attemptResult c with
    | some motd => (attemptTrace timeoutMs c, some motd)
    | none =>
      ((attemptTrace timeoutMs c) ++ (runLoop timeoutMs rest).1, (runLoop timeoutMs rest).2)

/-- The two MotdException error conditions QueryMotdImpl can throw: DNS
resolution failure (line 176), carrying the gai_strerror message, and
exhaustion of all candidates (line 236), carrying host and port. -/
inductive MotdError where
  | resolutionFailed (gaiMsg : String)
  | allAttemptsFailed (host : String) (port : Nat)
deriving DecidableEq

/-- The message format of each MotdException as built by std::format at
MotdPE.cpp lines 176 and 236, i.e. what e.what() reports. -/
def MotdError.what : MotdError → String
  | .resolutionFailed gaiMsg => "DNS resolution failed: " ++ gaiMsg
  | .allAttemptsFailed host port =>
      "All connection attempts failed for " ++ host ++ ":" ++ toString port

/-- QueryMotdImpl (MotdPE.cpp lines 149-240).  The resolved argument is the
getaddrinfo outcome: an error carrying the gai_strerror message (nonzero
status at line 168), or the ordered candidate list.  On resolution failure
the routine throws before entering the loop, so the event trace is empty.
Otherwise it runs the candidate loop; if no candidate produced a payload it
throws the all-attempts-failed error naming host and port. -/
def QueryMotdImpl (host : String) (port : Nat) (timeoutMs : Int)
    (resolved : Except String (List Candidate)) :
    List SockEvent × Except MotdError (List Nat) :=
  match resolved with
  | .error gaiMsg => ([], .error (.resolutionFailed gaiMsg))
  | .ok cands =>
    match runLoop timeoutMs cands with
    | (tr, some motd) => (tr, .ok motd)
    | (tr, none) => (tr, .error (.allAttemptsFailed host port))

/-- queryMotd (MotdPE.cpp lines 244-246): the blocking entry point, a thin
delegate to QueryMotdImpl. -/
def queryMotd (host : String) (port : Nat) (timeoutMs : Int)
    (resolved : Except String (List Candidate)) :
    List SockEvent × Except MotdError (List Nat) :=
  QueryMotdImpl host port timeoutMs resolved

/-- How the body of the detached thread in the continuation overload of
queryMotdAsync observes QueryMotdImpl: a normal return, a thrown
std::exception (every MotdException is one), or a thrown value of any other
type, caught by the catch-all at line 275. -/
inductive ImplOutcome where
  | ok (motd : List Nat)
  | exn (e : MotdError)
  | unknownExn
deriving DecidableEq

/-- What the detached thread body ends up invoking: the success
continuation with the MOTD text, the error continuation with an exception
description, or nothing at all. -/
inductive Delivery where
  | success (motd : List Nat)
  | failure (desc : String)
  | noCall
deriving DecidableEq

/-- The body of the detached thread of the continuation overload of
queryMotdAsync (MotdPE.cpp lines 261-280).  hasOnSuccess and hasOnError
model whether the std::function arguments are non-empty, which the body
checks before invoking them.  The return type has no alternative for a
propagating exception: the try/catch chain converts every failure into a
Delivery. -/
def asyncThreadBody (outcome : ImplOutcome) (hasOnSuccess hasOnError : Bool) : Delivery :=
  match outcome with
  | .ok motd => if hasOnSuccess then .success motd else .noCall
  | .exn e => if hasOnError then .failure e.what else .noCall
  | .unknownExn => if hasOnError then .failure "Unknown exception" else .noCall

/-- The outcome of QueryMotdImpl as seen from the try block of the detached
thread: a return value or a thrown MotdException. -/
def implOutcome (host : String) (port : Nat) (timeoutMs : Int)
    (resolved : Except String (List Candidate)) : ImplOutcome :=
  match (QueryMotdImpl host port timeoutMs resolved).2 with
  | .ok m => .ok m
  | .error e => .exn e

/-- The continuation overload of queryMotdAsync (MotdPE.cpp lines 254-281):
run QueryMotdImpl on a detached thread and deliver its outcome through the
continuations. -/
def queryMotdAsyncCont (host : String) (port : Nat) (timeoutMs : Int)
    (resolved : Except String (List Candidate)) (hasOnSuccess hasOnError : Bool) :
    Delivery :=
  asyncThreadBody (implOutcome host port timeoutMs resolved) hasOnSuccess hasOnError

/-- Number of sockOpen events in a trace. -/
def countOpens (tr : List SockEvent) : Nat :=
  tr.countP fun e => match e with | .sockOpen _ => true | _ => false

/-- Number of sockClose events in a trace. -/
def countCloses (tr : List SockEvent) : Nat :=
  tr.countP fun e => match e with | .sockClose _ => true | _ => false

/-- Number of sendPkt events in a trace. -/
def countSends (tr : List SockEvent) : Nat :=
  tr.countP fun e => match e with | .sendPkt _ _ => true | _ => false

/-- Number of recvPkt events in a trace. -/
def countRecvs (tr : List SockEvent) : Nat :=
  tr.countP fun e => match e with | .recvPkt _ => true | _ => false

/-- Number of sockOpen events concerning the address a. -/
def countOpensAt (a : Nat) (tr : List SockEvent) : Nat :=
  tr.countP fun e => match e with | .sockOpen b => b == a | _ => false

/-- Number of candidates in the list that carry the address a. -/
def addrOccurrences (a : Nat) (cands : List Candidate) : Nat :=
  cands.countP fun c => c.addr == a

/-- The per-candidate failure modes named by the spec: socket creation
failure, send failure, receive timeout or receive error, or a reply of 35
bytes or fewer. -/
def failsListed (c : Candidate) : Prop :=
  c.socketOk = false ∨ c.sendOk = false ∨ c.recv = none ∨
  ∃ r, c.recv = some r ∧ r.length ≤ 35

/-- C3 counterexample: the claim says the bytes of the probe packet at
offsets 1 through 8 are all zero; in queryBuf they are
00 00 00 00 FF FF C1 1D, so bytes 5 through 8 are nonzero. -/
theorem c3_timestamp_counterexample :
    ¬ (queryBuf.drop 1).take 8 = List.replicate 8 0 := by decide

/-- C3 (amended): in the probe packet, the 8-byte client timestamp field at
offsets 1 through 8 is the fixed constant 00 00 00 00 FF FF C1 1D; its
first four bytes are zero but its last four are FF, C1 and 1D values. -/
theorem c3_timestamp_amended :
    (queryBuf.drop 1).take 8 = [0x00, 0x00, 0x00, 0x00, 0xFF, 0xFF, 0xC1, 0x1D] := by
  decide

/-- C5: if address resolution fails, QueryMotdImpl fails at once with the
resolution error, which is distinct from every all-attempts-failed error,
and its event trace is empty, so no socket is created and no datagram is
sent before the failure. -/
theorem c5_resolution_error (host : String) (port : Nat) (timeoutMs : Int)
    (gaiMsg : String) :
    QueryMotdImpl host port timeoutMs (.error gaiMsg) =
      ([], .error (.resolutionFailed gaiMsg)) ∧
    (∀ h2 p2, MotdError.resolutionFailed gaiMsg ≠ MotdError.allAttemptsFailed h2 p2) := by
  refine ⟨rfl, ?_⟩
  intro h2 p2 h
  exact MotdError.noConfusion h

/-- C8: the timeout conversion before setsockopt keeps millisecond
precision: tv_sec is t / 1000, tv_usec is (t mod 1000) * 1000, and
tv_sec * 1000 + tv_usec / 1000 recovers t exactly (division as in C++,
truncating toward zero). -/
theorem c8_timeout_precision (t : Int) :
    (tvOfTimeoutMs t).1 = t.tdiv 1000 ∧
    (tvOfTimeoutMs t).2 = t.tmod 1000 * 1000 ∧
    (tvOfTimeoutMs t).1 * 1000 + (tvOfTimeoutMs t).2.tdiv 1000 = t := by
  refine ⟨rfl, rfl, ?_⟩
  have h1 : (t.tmod 1000 * 1000).tdiv 1000 = t.tmod 1000 :=
    Int.mul_tdiv_cancel _ (by norm_num)
  have h2 : 1000 * t.tdiv 1000 + t.tmod 1000 = t := Int.tdiv_add_tmod t 1000
  simp only [tvOfTimeoutMs, h1]
  linarith

/-- C10: with an empty error continuation a failing probe invokes nothing,
whether the failure is a MotdException or an unrecognized one, and with an
empty success continuation a successful probe likewise invokes nothing. -/
theorem c10_null_continuations (e : MotdError) (m : List Nat) (hs he : Bool) :
    asyncThreadBody (.exn e) hs false = .noCall ∧
    asyncThreadBody .unknownExn hs false = .noCall ∧
    asyncThreadBody (.ok m) false he = .noCall := by
  refine ⟨rfl, rfl, rfl⟩

/-- Helper: unfolding of the loop at a successful head candidate (the break
at line 231 stops the iteration). -/
theorem runLoop_cons_some (t : Int) (c : Candidate) (rest : List Candidate)
    (m : List Nat) (h : attemptResult c = some m) :
    runLoop t (c :: rest) = (attemptTrace t c, some m) := by
  simp [runLoop, h]

/-- Helper: unfolding of the loop at a failing head candidate (the loop
advances). -/
theorem runLoop_cons_none (t : Int) (c : Candidate) (rest : List Candidate)
    (h : attemptResult c = none) :
    runLoop t (c :: rest) =
      ((attemptTrace t c) ++ (runLoop t rest).1, (runLoop t rest).2) := by
  simp [runLoop, h]

/-- Helper: when the loop ends in success, QueryMotdImpl returns the
payload. -/
theorem QueryMotdImpl_eq_ok (host : String) (port : Nat) (t : Int)
    (cands : List Candidate) (m : List Nat) (tr : List SockEvent)
    (h : runLoop t cands = (tr, some m)) :
    QueryMotdImpl host port t (.ok cands) = (tr, .ok m) := by
  simp [QueryMotdImpl, h]

/-- Helper: when the loop ends without success, QueryMotdImpl throws the
all-attempts-failed error. -/
theorem QueryMotdImpl_eq_err (host : String) (port : Nat) (t : Int)
    (cands : List Candidate) (tr : List SockEvent)
    (h : runLoop t cands = (tr, none)) :
    QueryMotdImpl host port t (.ok cands) =
      (tr, .error (.allAttemptsFailed host port)) := by
  simp [QueryMotdImpl, h]

/-- Helper: the event trace of QueryMotdImpl on a resolved candidate list
is the trace of the loop, whether or not a payload was found. -/
theorem QueryMotdImpl_trace_ok (host : String) (port : Nat) (t : Int)
    (cands : List Candidate) :
    (QueryMotdImpl host port t (.ok cands)).1 = (runLoop t cands).1 := by
  cases h : runLoop t cands with
  | mk tr r => cases r <;> simp [QueryMotdImpl, h]

/-- Helper: every sendPkt event of a single attempt carries queryBuf. -/
theorem attemptTrace_send_eq (t : Int) (c : Candidate) (a : Nat) (p : List Nat)
    (h : SockEvent.sendPkt a p ∈ attemptTrace t c) : p = queryBuf := by
  rcases c with ⟨b, so, sk, se, rv⟩
  cases so <;> cases sk <;> cases se <;> simp_all [attemptTrace]

/-- Helper: every sendPkt event of the whole loop carries queryBuf. -/
theorem runLoop_send_eq (t : Int) (cands : List Candidate) (a : Nat) (p : List Nat)
    (h : SockEvent.sendPkt a p ∈ (runLoop t cands).1) : p = queryBuf := by
  induction cands with
  | nil => simp [runLoop] at h
  | cons c rest ih =>
    cases hres : attemptResult c with
    | some m =>
      rw [runLoop_cons_some t c rest m hres] at h
      exact attemptTrace_send_eq t c a p h
    | none =>
      rw [runLoop_cons_none t c rest hres] at h
      rcases List.mem_append.mp h with h2 | h2
      · exact attemptTrace_send_eq t c a p h2
      · exact ih h2

/-- C1: whenever the probe succeeds on a candidate whose reply, as
delivered by recvfrom, is strictly longer than 35 bytes, queryMotd returns
exactly the bytes of that reply from offset 35 through the end, of length
recvLen - 35, and nothing else. -/
theorem c1_payload_extraction (host : String) (port : Nat) (t : Int)
    (c : Candidate) (rest : List Candidate) (reply : List Nat)
    (hso : c.socketOk = true) (hsk : c.sockoptOk = true) (hse : c.sendOk = true)
    (hr : c.recv = some reply) (hlen : 35 < reply.length) :
    (queryMotd host port t (.ok (c :: rest))).2 = .ok (reply.drop 35) ∧
    (reply.drop 35).length = reply.length - 35 := by
  have har : attemptResult c = some (reply.drop 35) := by
    simp [attemptResult, hso, hsk, hse, hr, hlen]
  constructor
  · have := QueryMotdImpl_eq_ok host port t (c :: rest) (reply.drop 35)
      (attemptTrace t c) (runLoop_cons_some t c rest (reply.drop 35) har)
    simp [queryMotd, this]
  · simp

/-- C1 witness: a single candidate answering with 36 bytes, 35 header
bytes then one byte 65, yields exactly that one byte. -/
theorem c1_payload_extraction_witness :
    (queryMotd "localhost" 19132 5000
        (.ok [⟨0, true, true, true, some (List.replicate 36 65)⟩])).2 =
      .ok ((List.replicate 36 65).drop 35) ∧
    ((List.replicate 36 65).drop 35).length = (List.replicate 36 65).length - 35 :=
  c1_payload_extraction "localhost" 19132 5000
    ⟨0, true, true, true, some (List.replicate 36 65)⟩ [] (List.replicate 36 65)
    rfl rfl rfl rfl (by decide)

/-- C2: every datagram passed to sendto in any run of QueryMotdImpl, for
any host, port, timeout and resolution outcome, is queryBuf, and queryBuf
is exactly the fixed 33-byte sequence of the claim, a constant never
computed from the inputs. -/
theorem c2_fixed_probe_packet (host : String) (port : Nat) (t : Int)
    (resolved : Except String (List Candidate)) (a : Nat) (p : List Nat)
    (hmem : SockEvent.sendPkt a p ∈ (QueryMotdImpl host port t resolved).1) :
    p = queryBuf ∧
    queryBuf = [0x01, 0x00, 0x00, 0x00, 0x00, 0xFF, 0xFF, 0xC1, 0x1D, 0x00,
                0xFF, 0xFF, 0x00, 0xFE, 0xFE, 0xFE, 0xFE, 0xFD, 0xFD, 0xFD,
                0xFD, 0x12, 0x34, 0x56, 0x78, 0x9C, 0x18, 0x28, 0x7F, 0xE1,
                0x64, 0x89, 0x8D] ∧
    queryBuf.length = 33 := by
  refine ⟨?_, by decide, by decide⟩
  cases resolved with
  | error gaiMsg => simp [QueryMotdImpl] at hmem
  | ok cands =>
    rw [QueryMotdImpl_trace_ok host port t cands] at hmem
    exact runLoop_send_eq t cands a p hmem

/-- C2 witness: in a concrete run with one candidate whose receive times
out, the sendto event is present in the trace and carries queryBuf. -/
theorem c2_fixed_probe_packet_witness :
    queryBuf = queryBuf ∧
    queryBuf = [0x01, 0x00, 0x00, 0x00, 0x00, 0xFF, 0xFF, 0xC1, 0x1D, 0x00,
                0xFF, 0xFF, 0x00, 0xFE, 0xFE, 0xFE, 0xFE, 0xFD, 0xFD, 0xFD,
                0xFD, 0x12, 0x34, 0x56, 0x78, 0x9C, 0x18, 0x28, 0x7F, 0xE1,
                0x64, 0x89, 0x8D] ∧
    queryBuf.length = 33 :=
  c2_fixed_probe_packet "localhost" 19132 0 (.ok [⟨0, true, true, true, none⟩])
    0 queryBuf (by decide)

/-- Helper: a candidate failing in one of the spec's listed ways produces
no payload. -/
theorem attemptResult_none_of_failsListed (c : Candidate) (h : failsListed c) :
    attemptResult c = none := by
  unfold attemptResult
  rcases h with h | h | h | ⟨r, hr, hlen⟩
  · simp [h]
  · simp [h]
  · rw [h]; cases c.socketOk && c.sockoptOk && c.sendOk <;> simp
  · rw [hr]
    have hn : ¬ 35 < r.length := by omega
    cases c.socketOk && c.sockoptOk && c.sendOk <;> simp [hn]

/-- Helper: a fully failing candidate list yields no payload. -/
theorem runLoop_none_of_all_failsListed (t : Int) (cands : List Candidate) :
    (∀ d ∈ cands, failsListed d) → (runLoop t cands).2 = none := by
  induction cands with
  | nil => intro _; rfl
  | cons d ds ih =>
    intro hl
    rw [runLoop_cons_none t d ds (attemptResult_none_of_failsListed d (hl d (by simp)))]
    exact ih fun x hx => hl x (by simp [hx])

/-- C4: a candidate that fails in one of the listed ways (socket creation
failure, send failure, receive timeout or error, or a reply of 35 bytes or
fewer) never changes the outcome, it only advances the loop to the next
candidate; and when every resolved candidate fails in one of these ways,
QueryMotdImpl fails with the single all-attempts-failed error naming the
host and the port. -/
theorem c4_failure_containment (host : String) (port : Nat) (t : Int)
    (c : Candidate) (rest cands : List Candidate)
    (hc : failsListed c) (hall : ∀ d ∈ cands, failsListed d) :
    (runLoop t (c :: rest)).2 = (runLoop t rest).2 ∧
    (QueryMotdImpl host port t (.ok cands)).2 =
      .error (.allAttemptsFailed host port) := by
  constructor
  · rw [runLoop_cons_none t c rest (attemptResult_none_of_failsListed c hc)]
  · have h2 := runLoop_none_of_all_failsListed t cands hall
    cases hrl : runLoop t cands with
    | mk tr r =>
      rw [hrl] at h2
      simp only at h2
      subst h2
      rw [QueryMotdImpl_eq_err host port t cands tr hrl]

/-- C4 witness: a single candidate whose socket creation fails leads to the
all-attempts-failed error, and prepending it to an empty list leaves the
loop outcome unchanged. -/
theorem c4_failure_containment_witness :
    (runLoop 5000 ([⟨0, false, true, true, none⟩] : List Candidate)).2 =
      (runLoop 5000 ([] : List Candidate)).2 ∧
    (QueryMotdImpl "example.com" 19132 5000
        (.ok [⟨0, false, true, true, none⟩])).2 =
      .error (.allAttemptsFailed "example.com" 19132) :=
  c4_failure_containment "example.com" 19132 5000 ⟨0, false, true, true, none⟩ []
    [⟨0, false, true, true, none⟩] (Or.inl rfl)
    (by intro d hd; simp at hd; subst hd; exact Or.inl rfl)

/-- Helper: the loop runs through a fully failing prefix, accumulating one
attempt trace per prefix candidate, and continues on the suffix. -/
theorem runLoop_append_none (t : Int) (pre l : List Candidate) :
    (∀ d ∈ pre, attemptResult d = none) →
    runLoop t (pre ++ l) =
      ((pre.map (attemptTrace t)).flatten ++ (runLoop t l).1, (runLoop t l).2) := by
  induction pre with
  | nil => intro _; simp
  | cons d ds ih =>
    intro hpre
    rw [List.cons_append, runLoop_cons_none t d _ (hpre d (by simp)),
        ih fun x hx => hpre x (by simp [hx])]
    simp

/-- C6: the first candidate, in resolution order, whose attempt produces a
payload wins: every earlier candidate contributes exactly one attempt
trace, no candidate after the winner is touched at all, and the call
returns exactly that one payload. -/
theorem c6_first_success_wins (host : String) (port : Nat) (t : Int)
    (pre post : List Candidate) (c : Candidate) (m : List Nat)
    (hpre : ∀ d ∈ pre, attemptResult d = none)
    (hc : attemptResult c = some m) :
    QueryMotdImpl host port t (.ok (pre ++ c :: post)) =
      ((pre.map (attemptTrace t)).flatten ++ attemptTrace t c, .ok m) := by
  have key := runLoop_append_none t pre (c :: post) hpre
  rw [runLoop_cons_some t c post m hc] at key
  exact QueryMotdImpl_eq_ok host port t _ m _ key

/-- C6 witness: with a timing-out first candidate, a succeeding second and
a third that would also succeed, only the first two are attempted and the
second one's payload is returned. -/
theorem c6_first_success_wins_witness :
    QueryMotdImpl "example.com" 19132 5000
        (.ok ([⟨0, true, true, true, none⟩] ++
              ⟨1, true, true, true, some (List.replicate 40 7)⟩ ::
              [⟨2, true, true, true, some (List.replicate 50 8)⟩])) =
      (([(⟨0, true, true, true, none⟩ : Candidate)].map (attemptTrace 5000)).flatten ++
         attemptTrace 5000 ⟨1, true, true, true, some (List.replicate 40 7)⟩,
       .ok ((List.replicate 40 7).drop 35)) :=
  c6_first_success_wins "example.com" 19132 5000
    [⟨0, true, true, true, none⟩] [⟨2, true, true, true, some (List.replicate 50 8)⟩]
    ⟨1, true, true, true, some (List.replicate 40 7)⟩ ((List.replicate 40 7).drop 35)
    (by decide) (by decide)

/-- C7: in the continuation overload of queryMotdAsync, with both
continuations supplied, every failure thrown by QueryMotdImpl on the
background thread is caught and delivered to the error continuation with
its description, a success delivers the MOTD text to the success
continuation, and an unrecognized failure kind is delivered to the error
continuation with the generic description Unknown exception; the thread
body has no outcome in which a failure propagates out of it. -/
theorem c7_continuation_routing (host : String) (port : Nat) (t : Int)
    (resolved : Except String (List Candidate)) :
    (∀ e, (QueryMotdImpl host port t resolved).2 = .error e →
        queryMotdAsyncCont host port t resolved true true = .failure e.what) ∧
    (∀ m, (QueryMotdImpl host port t resolved).2 = .ok m →
        queryMotdAsyncCont host port t resolved true true = .success m) ∧
    (∀ hs : Bool, asyncThreadBody .unknownExn hs true =
        .failure "Unknown exception") := by
  refine ⟨?_, ?_, fun hs => rfl⟩
  · intro e he
    simp [queryMotdAsyncCont, implOutcome, he, asyncThreadBody]
  · intro m hm
    simp [queryMotdAsyncCont, implOutcome, hm, asyncThreadBody]

/-- C7 witness: a resolution failure on the background thread reaches the
error continuation with the DNS-resolution description. -/
theorem c7_continuation_routing_witness :
    queryMotdAsyncCont "badhost" 19132 5000
        (.error "Name or service not known") true true =
      .failure (MotdError.resolutionFailed "Name or service not known").what :=
  (c7_continuation_routing "badhost" 19132 5000
      (.error "Name or service not known")).1
    (.resolutionFailed "Name or service not known") rfl

/-- C9 counterexample: the claim asserts exactly one socket opened per
candidate attempted and exactly one send on every opened socket.  A
candidate whose setsockopt call fails is attempted, opens one socket and
performs no send; a candidate whose socket call fails is attempted and
opens no socket. -/
theorem c9_socket_counterexample :
    countOpens (QueryMotdImpl "localhost" 19132 5000
        (.ok [⟨0, true, false, true, none⟩])).1 = 1 ∧
    countSends (QueryMotdImpl "localhost" 19132 5000
        (.ok [⟨0, true, false, true, none⟩])).1 = 0 ∧
    countOpens (QueryMotdImpl "localhost" 19132 5000
        (.ok [⟨1, false, true, true, none⟩])).1 = 0 := by
  decide

/-- Helper: event counts of a single attempt: at most one socket is opened,
every opened socket is closed, at most one send on an opened socket, at
most one receive after a send. -/
theorem attemptTrace_counts (t : Int) (c : Candidate) :
    countOpens (attemptTrace t c) ≤ 1 ∧
    countCloses (attemptTrace t c) = countOpens (attemptTrace t c) ∧
    countSends (attemptTrace t c) ≤ countOpens (attemptTrace t c) ∧
    countRecvs (attemptTrace t c) ≤ countSends (attemptTrace t c) := by
  rcases c with ⟨b, so, sk, se, rv⟩
  cases so <;> cases sk <;> cases se <;>
    simp [attemptTrace, countOpens, countCloses, countSends, countRecvs,
      List.countP_cons, List.countP_nil]

/-- Helper: a single attempt opens a socket for its own address only, and
at most once. -/
theorem attemptTrace_opensAt (t : Int) (c : Candidate) (a : Nat) :
    countOpensAt a (attemptTrace t c) ≤ if c.addr = a then 1 else 0 := by
  rcases c with ⟨b, so, sk, se, rv⟩
  cases so <;> cases sk <;> cases se <;>
    by_cases hb : b = a <;>
      simp [attemptTrace, countOpensAt, List.countP_cons, List.countP_nil, hb]

/-- Helper: event counts over the whole candidate loop. -/
theorem runLoop_counts (t : Int) (cands : List Candidate) :
    countOpens (runLoop t cands).1 ≤ cands.length ∧
    countCloses (runLoop t cands).1 = countOpens (runLoop t cands).1 ∧
    countSends (runLoop t cands).1 ≤ countOpens (runLoop t cands).1 ∧
    countRecvs (runLoop t cands).1 ≤ countSends (runLoop t cands).1 ∧
    ∀ a, countOpensAt a (runLoop t cands).1 ≤ addrOccurrences a cands := by
  induction cands with
  | nil =>
    simp [runLoop, countOpens, countCloses, countSends, countRecvs,
      countOpensAt, addrOccurrences]
  | cons c rest ih =>
    obtain ⟨h1, h2, h3, h4, h5⟩ := ih
    obtain ⟨a1, a2, a3, a4⟩ := attemptTrace_counts t c
    cases hres : attemptResult c with
    | some m =>
      rw [runLoop_cons_some t c rest m hres]
      refine ⟨by simp; omega, a2, a3, a4, ?_⟩
      intro a
      have ha := attemptTrace_opensAt t c a
      have : addrOccurrences a (c :: rest) =
          (if c.addr == a then 1 else 0) + addrOccurrences a rest := by
        simp [addrOccurrences, List.countP_cons]
        omega
      rw [this]
      by_cases hb : c.addr = a <;> simp [hb] at ha ⊢ <;> omega
    | none =>
      rw [runLoop_cons_none t c rest hres]
      have e1 : countOpens ((attemptTrace t c) ++ (runLoop t rest).1) =
          countOpens (attemptTrace t c) + countOpens (runLoop t rest).1 := by
        simp [countOpens, List.countP_append]
      have e2 : countCloses ((attemptTrace t c) ++ (runLoop t rest).1) =
          countCloses (attemptTrace t c) + countCloses (runLoop t rest).1 := by
        simp [countCloses, List.countP_append]
      have e3 : countSends ((attemptTrace t c) ++ (runLoop t rest).1) =
          countSends (attemptTrace t c) + countSends (runLoop t rest).1 := by
        simp [countSends, List.countP_append]
      have e4 : countRecvs ((attemptTrace t c) ++ (runLoop t rest).1) =
          countRecvs (attemptTrace t c) + countRecvs (runLoop t rest).1 := by
        simp [countRecvs, List.countP_append]
      refine ⟨by simp [e1]; omega, by simp [e1, e2]; omega,
        by simp [e1, e3]; omega, by simp [e3, e4]; omega, ?_⟩
      intro a
      have ha := attemptTrace_opensAt t c a
      have ha5 := h5 a
      have e5 : countOpensAt a ((attemptTrace t c) ++ (runLoop t rest).1) =
          countOpensAt a (attemptTrace t c) + countOpensAt a (runLoop t rest).1 := by
        simp [countOpensAt, List.countP_append]
      have e6 : addrOccurrences a (c :: rest) =
          (if c.addr == a then 1 else 0) + addrOccurrences a rest := by
        simp [addrOccurrences, List.countP_cons]
        omega
      rw [e5, e6]
      by_cases hb : c.addr = a <;> simp [hb] at ha ⊢ <;> omega

/-- C9 (amended): per probe call, at most one socket is opened per
candidate address attempted (none when socket creation fails), never more
sockets than resolved addresses; every opened socket is closed; on every
opened socket at most one send (none when configuring the receive timeout
fails) and at most one receive are performed; and no address is retried:
sockets are opened for an address at most as often as it occurs in the
resolved list. -/
theorem c9_socket_discipline (host : String) (port : Nat) (t : Int)
    (resolved : Except String (List Candidate)) (cands : List Candidate)
    (hres : resolved = .ok cands) :
    countOpens (QueryMotdImpl host port t resolved).1 ≤ cands.length ∧
    countCloses (QueryMotdImpl host port t resolved).1 =
      countOpens (QueryMotdImpl host port t resolved).1 ∧
    countSends (QueryMotdImpl host port t resolved).1 ≤
      countOpens (QueryMotdImpl host port t resolved).1 ∧
    countRecvs (QueryMotdImpl host port t resolved).1 ≤
      countSends (QueryMotdImpl host port t resolved).1 ∧
    ∀ a, countOpensAt a (QueryMotdImpl host port t resolved).1 ≤
      addrOccurrences a cands := by
  subst hres
  rw [QueryMotdImpl_trace_ok host port t cands]
  exact runLoop_counts t cands

/-- C9 witness: the socket-discipline bounds instantiated on a concrete
run with one timing-out candidate. -/
theorem c9_socket_discipline_witness :
    countOpens (QueryMotdImpl "localhost" 19132 250
        (.ok [⟨0, true, true, true, none⟩])).1 ≤
      [(⟨0, true, true, true, none⟩ : Candidate)].length ∧
    countCloses (QueryMotdImpl "localhost" 19132 250
        (.ok [⟨0, true, true, true, none⟩])).1 =
      countOpens (QueryMotdImpl "localhost" 19132 250
        (.ok [⟨0, true, true, true, none⟩])).1 ∧
    countSends (QueryMotdImpl "localhost" 19132 250
        (.ok [⟨0, true, true, true, none⟩])).1 ≤
      countOpens (QueryMotdImpl "localhost" 19132 250
        (.ok [⟨0, true, true, true, none⟩])).1 ∧
    countRecvs (QueryMotdImpl "localhost" 19132 250
        (.ok [⟨0, true, true, true, none⟩])).1 ≤
      countSends (QueryMotdImpl "localhost" 19132 250
        (.ok [⟨0, true, true, true, none⟩])).1 ∧
    ∀ a, countOpensAt a (QueryMotdImpl "localhost" 19132 250
        (.ok [⟨0, true, true, true, none⟩])).1 ≤
      addrOccurrences a [⟨0, true, true, true, none⟩] :=
  c9_socket_discipline "localhost" 19132 250
    (.ok [⟨0, true, true, true, none⟩]) [⟨0, true, true, true, none⟩] rfl
